import Mathlib

/-!
Verification of the Item CRUD service (`app/main.py`, `app/schemas.py`).

The request bodies are JSON documents; we embed the fragment of JSON the
service handles (numbers are modelled as integers — no claim involves a
fractional literal).  The schema layer (`app/schemas.py`) declares, with
pydantic v1 (`orm_mode = True` is the v1 configuration key):

    class ItemBase(BaseModel):
        title: str
        description: str = None

so `title` is a required lenient-`str` field and `description`, having the
default `None`, is an optional `Optional[str]` field.  Pydantic v1's lenient
`str` validator accepts `str` values as they are, stringifies `int`, `float`
and `bool` values, and rejects everything else; `None` is rejected for a
field that does not allow it.  Unknown fields are ignored (pydantic v1
default `Extra.ignore`).  These library semantics are embedded below so the
declarations of `app/schemas.py` have their actual meaning.
-/

inductive Json where
  | null : Json
  | bool : Bool → Json
  | num : Int → Json
  | str : String → Json
  | arr : List Json → Json
  | obj : List (String × Json) → Json

/-- First binding for key `k` in a JSON object's field list (Python dicts
parsed from JSON have unique keys, so first = only). -/
def lookupField (fs : List (String × Json)) (k : String) : Option Json :=
  (fs.find? (fun p => p.1 == k)).map (fun p => p.2)

/-- The pydantic v1 error kinds the two fields of `ItemBase` can produce. -/
inductive FieldError where
  | missing : FieldError
  | noneNotAllowed : FieldError
  | strType : FieldError
  | notADict : FieldError
deriving DecidableEq, Repr

/-- Pydantic v1 lenient `str` validator: a `str` passes through, `int`,
`float` and `bool` are stringified (`str(v)` in Python), everything else is
a type error; `None` is not allowed for a plain `str` field. -/
def strValidate : Json → Except FieldError String
  | .str s => .ok s
  | .num n => .ok (toString n)
  | .bool b => .ok (if b then "True" else "False")
  | .null => .error .noneNotAllowed
  | .arr _ => .error .strType
  | .obj _ => .error .strType

/-- The validated value of `ItemBase` (`app/schemas.py:3-5`): a required
string `title` and an optional string `description` defaulting to `None`. -/
structure ItemBase where
  title : String
  description : Option String
deriving DecidableEq, Repr

/-- `ItemCreate` adds nothing to `ItemBase` (`app/schemas.py:7-8`). -/
abbrev ItemCreate := ItemBase

/-- `ItemUpdate` adds nothing to `ItemBase` (`app/schemas.py:10-11`). -/
abbrev ItemUpdate := ItemBase

/-- Validation of a request body against `ItemBase` under pydantic v1:
the body must be a JSON object; `title` is required and `str`-validated;
`description` defaults to `None` when absent, may be `null`, and is
otherwise `str`-validated; unknown fields are ignored; errors of both
fields are collected. -/
def validateItemBase (j : Json) : Except (List (String × FieldError)) ItemBase :=
  match j with
  | .obj fs =>
    let tR : Except FieldError String :=
      match lookupField fs "title" with
      | none => .error .missing
      | some v => strValidate v
    let dR : Except FieldError (Option String) :=
      match lookupField fs "description" with
      | none => .ok none
      | some .null => .ok none
      | some v => (strValidate v).map some
    match tR, dR with
    | .ok t, .ok d => .ok ⟨t, d⟩
    | .error e, .ok _ => .error [("title", e)]
    | .ok _, .error e => .error [("description", e)]
    | .error e1, .error e2 => .error [("title", e1), ("description", e2)]
  | _ => .error [("__root__", .notADict)]

/-- `ItemCreate` validates exactly as `ItemBase`. -/
def validateItemCreate (j : Json) : Except (List (String × FieldError)) ItemCreate :=
  validateItemBase j

/-- `ItemUpdate` validates exactly as `ItemBase`. -/
def validateItemUpdate (j : Json) : Except (List (String × FieldError)) ItemBase :=
  validateItemBase j

/-- Whether a validation outcome is an acceptance. -/
def valOk {ε α : Type} : Except ε α → Bool
  | .ok _ => true
  | .error _ => false

/-! ## Persistence layer

`app/main.py` delegates each endpoint to `crud.create_item`, `crud.get_item`,
`crud.update_item` and `crud.delete_item`, but `app/crud.py` and
`app/models.py` are not part of the sources here; the persistence layer is
modelled from the spec (sections 3, 4.2 and 6).  The store is a single table
of rows with columns `id` (primary key), `title`, `description`; the column
values of a relational row are nullable at the store level, so `title` is an
`Option String` in a stored row and the non-null-`title` invariant is a
property to prove, not a typing artifact. -/

/-- A stored row of the `items` table: column `id` (integer primary key),
`title` and `description` (nullable string columns).  Python integers are
unbounded, hence `Int`. -/
structure Item where
  id : Int
  title : Option String
  description : Option String
deriving DecidableEq, Repr

/-- The single-table store plus the fresh-id source of the persistence
layer.  Ids are assigned sequentially starting from 1 (the spec's scenario
assigns id 1 to the first created Item). -/
structure Store where
  rows : List Item
  nextId : Int
deriving DecidableEq, Repr

/-- The store of a fresh deployment: no rows, first id to assign is 1. -/
def emptyStore : Store := ⟨[], 1⟩

/-- The error taxonomy of the spec (section 7).  The pure store model never
raises `storeUnavailable`; it exists so that "signals NotFound, never a
different error kind" is a statement with content. -/
inductive ApiError where
  | notFound : ApiError
  | validationError : List (String × FieldError) → ApiError
  | storeUnavailable : ApiError
deriving DecidableEq, Repr

namespace Crud

/-- Modelled from the spec: `crud.create_item` (`app/crud.py` is not in the
sources).  Spec 4.2: "inserts a new row, assigns a fresh unique id, returns
the stored Item including its id.  Always succeeds unless the store is
unreachable." -/
def create_item (db : Store) (item : ItemCreate) : Store × Item :=
  let row : Item := ⟨db.nextId, some item.title, item.description⟩
  (⟨db.rows ++ [row], db.nextId + 1⟩, row)

/-- Modelled from the spec: `crud.get_item` (`app/crud.py` is not in the
sources).  Spec 4.2: "looks up by id; signals NotFound if no row matches." -/
def get_item (db : Store) (item_id : Int) : Except ApiError Item :=
  match db.rows.find? (fun r => r.id == item_id) with
  | some r => .ok r
  | none => .error .notFound

/-- The row produced by overwriting `title`/`description` of the row with
the given id. -/
def overwrite (item_id : Int) (item : ItemUpdate) : Item :=
  ⟨item_id, some item.title, item.description⟩

/-- The store after `update_item` succeeded on `item_id`. -/
def updateRows (db : Store) (item_id : Int) (item : ItemUpdate) : Store :=
  ⟨db.rows.map (fun r => if r.id == item_id then overwrite item_id item else r),
   db.nextId⟩

/-- Modelled from the spec: `crud.update_item` (`app/crud.py` is not in the
sources).  Spec 4.2: "overwrites `title`/`description` for the row matching
id; signals NotFound if no row matches."  The id is unchanged. -/
def update_item (db : Store) (item_id : Int) (item : ItemUpdate) :
    Except ApiError (Store × Item) :=
  if db.rows.any (fun r => r.id == item_id) then
    .ok (updateRows db item_id item, overwrite item_id item)
  else
    .error .notFound

/-- Modelled from the spec: `crud.delete_item` (`app/crud.py` is not in the
sources).  Spec 4.2: "removes the row matching id; signals NotFound if no
row matches." -/
def delete_item (db : Store) (item_id : Int) : Except ApiError Store :=
  if db.rows.any (fun r => r.id == item_id) then
    .ok ⟨db.rows.filter (fun r => !(r.id == item_id)), db.nextId⟩
  else
    .error .notFound

end Crud

/-! ## Request layer -/

/-- Serialization of a stored Item to the JSON response body
(`{id, title, description}`, absent optionals rendered as JSON null). -/
def Item.toJson (r : Item) : Json :=
  .obj [("id", .num r.id),
        ("title", match r.title with | some t => .str t | none => .null),
        ("description", match r.description with | some d => .str d | none => .null)]

/-- `POST /items/` (`app/main.py:19-21`): validate the body against the
Create shape, then delegate to `crud.create_item`; the success response is
the created Item with its id. -/
def post_items (db : Store) (body : Json) : Except ApiError (Store × Json) :=
  match validateItemCreate body with
  | .error es => .error (.validationError es)
  | .ok item =>
    let (db2, row) := Crud.create_item db item
    .ok (db2, row.toJson)

/-- The observable events of a request's store-session lifecycle. -/
inductive SessionEv where
  | acquired : SessionEv
  | released : SessionEv
deriving DecidableEq, Repr

/-- `get_db` (`app/main.py:11-16`): the per-request dependency

    try:
        db = SessionLocal()
        yield db
    finally:
        db.close()

`SessionLocal` lives in `app/database.py` (not in the sources); it is
abstracted as a possibly-failing session constructor, a session being an
opaque handle.  The handler body runs between the yield and the resumption
and may end in success or in any error; the `finally` clause closes the
session on either resumption path.  If `SessionLocal()` itself raises, no
session exists, the `finally` clause finds the local `db` unbound, and the
request fails as a server error with nothing acquired or released. -/
def get_db {α : Type} (sessionLocal : Except ApiError Nat)
    (handler : Nat → Except ApiError α) : List SessionEv × Except ApiError α :=
  match sessionLocal with
  | .error _ => ([], .error .storeUnavailable)
  | .ok s => ([.acquired, .released], handler s)

/-! ## Acceptance characterization

Which JSON values pydantic v1 lets through a lenient `str` field, stated as
decidable predicates so the acceptance behaviour of `validateItemBase` can
be characterised exactly. -/

/-- A JSON value the pydantic v1 lenient `str` validator accepts (strings
pass through, numbers and booleans are stringified). -/
def strCoercible : Json → Bool
  | .str _ => true
  | .num _ => true
  | .bool _ => true
  | _ => false

/-- Whether a `title` lookup result passes validation: the field is
required and `str`-validated. -/
def titleAccepted : Option Json → Bool
  | none => false
  | some v => strCoercible v

/-- Whether a `description` lookup result passes validation: the field is
optional, null is allowed, anything else is `str`-validated. -/
def descAccepted : Option Json → Bool
  | none => true
  | some .null => true
  | some v => strCoercible v

/-! ## Reachable store states -/

/-- The store states reachable from a fresh deployment by the mutating
operations of the persistence layer (`create_item`, a successful
`update_item`, a successful `delete_item`); `get_item` does not change the
store. -/
inductive Reachable : Store → Prop where
  | init : Reachable emptyStore
  | create (db : Store) (f : ItemCreate) :
      Reachable db → Reachable (Crud.create_item db f).1
  | update (db db2 : Store) (item_id : Int) (f : ItemUpdate) (row : Item) :
      Reachable db → Crud.update_item db item_id f = .ok (db2, row) →
      Reachable db2
  | delete (db db2 : Store) (item_id : Int) :
      Reachable db → Crud.delete_item db item_id = .ok db2 → Reachable db2

/-- The store invariant: ids are pairwise distinct, titles are non-null,
and every assigned id is below the fresh-id source (the bound is what makes
the first two parts survive `create_item`). -/
def Store.Inv (db : Store) : Prop :=
  db.rows.Pairwise (fun a b => a.id ≠ b.id) ∧
  (∀ r ∈ db.rows, r.title ≠ none) ∧
  (∀ r ∈ db.rows, r.id < db.nextId)

/-! ## Theorems -/

/-- C3 (amended): validation of the Create and Update shapes rejects a
body (with field-level ValidationError detail) exactly when it lacks
`title`, or its `title` is null, an array or an object, or its
`description` is present and is an array or an object; a string `title`
with an absent, null or string `description` is accepted, and numeric or
boolean values for either field are coerced to strings and accepted
rather than rejected. -/
theorem valOk_validateItemBase (fs : List (String × Json)) :
    valOk (validateItemBase (Json.obj fs)) =
      (titleAccepted (lookupField fs "title") &&
       descAccepted (lookupField fs "description")) := by
  cases hT : lookupField fs "title" with
  | none =>
    cases hD : lookupField fs "description" with
    | none => simp [validateItemBase, hT, hD, titleAccepted, descAccepted, valOk]
    | some dv =>
      cases dv <;>
        simp [validateItemBase, hT, hD, titleAccepted, descAccepted, valOk,
          strValidate, strCoercible, Except.map]
  | some tv =>
    cases hD : lookupField fs "description" with
    | none =>
      cases tv <;>
        simp [validateItemBase, hT, hD, titleAccepted, descAccepted, valOk,
          strValidate, strCoercible, Except.map]
    | some dv =>
      cases tv <;> cases dv <;>
        simp [validateItemBase, hT, hD, titleAccepted, descAccepted, valOk,
          strValidate, strCoercible, Except.map]

/-- C3 (counterexample): the claim says a body whose `title` is not a
string, or whose `description` is present but not a string, is rejected;
pydantic v1 instead coerces an integer `title` to the string "123", and
accepts a present-but-null `description`. -/
theorem nonstring_title_accepted :
    validateItemBase (Json.obj [("title", Json.num 123)]) =
      .ok ⟨"123", none⟩ ∧
    validateItemBase (Json.obj [("title", Json.str "a"), ("description", Json.null)]) =
      .ok ⟨"a", none⟩ :=
  ⟨rfl, rfl⟩

/-- C6: a create body without `description` validates to the default
`None`, and the spec's scenario `POST /items/` with `{"title":"Buy milk"}`
on a fresh store returns `{"id":1,"title":"Buy milk","description":null}`,
the stored row holding id 1 and a null description. -/
theorem omitted_description_defaults_to_null :
    (∀ (fs : List (String × Json)) (f : ItemBase),
        lookupField fs "description" = none →
        validateItemBase (Json.obj fs) = .ok f → f.description = none) ∧
    post_items emptyStore (Json.obj [("title", Json.str "Buy milk")]) =
      .ok (⟨[⟨1, some "Buy milk", none⟩], 2⟩,
           Json.obj [("id", Json.num 1), ("title", Json.str "Buy milk"),
                     ("description", Json.null)]) := by
  constructor
  · intro fs f hD hV
    cases hT : lookupField fs "title" with
    | none => simp [validateItemBase, hT, hD] at hV
    | some tv =>
      cases hS : strValidate tv with
      | error e => simp [validateItemBase, hT, hD, hS] at hV
      | ok t =>
        simp [validateItemBase, hT, hD, hS] at hV
        rw [← hV]
  · rfl

/-- C6 witness: the general part at the concrete body
`{"title": "Buy milk"}`. -/
theorem omitted_description_defaults_to_null_witness :
    (ItemBase.mk "Buy milk" none).description = none :=
  omitted_description_defaults_to_null.1 [("title", Json.str "Buy milk")]
    ⟨"Buy milk", none⟩ rfl rfl

/-- C8: for every request whose session construction succeeds, the
`get_db` dependency acquires the session at request start and releases it
exactly once at request end, for every handler outcome (success or any
error), the release coming after the acquisition. -/
theorem get_db_releases_on_every_exit {α : Type} (s : Nat)
    (handler : Nat → Except ApiError α) :
    get_db (.ok s) handler =
      ([SessionEv.acquired, SessionEv.released], handler s) :=
  rfl

/-- C9: validation of a body is determined solely by its `title` and
`description` fields — any other fields are ignored — and a body with
extra fields and a well-typed `title`/`description` is accepted, not
rejected. -/
theorem extra_fields_ignored :
    (∀ fs1 fs2 : List (String × Json),
        lookupField fs1 "title" = lookupField fs2 "title" →
        lookupField fs1 "description" = lookupField fs2 "description" →
        validateItemBase (Json.obj fs1) = validateItemBase (Json.obj fs2)) ∧
    (∀ (fs : List (String × Json)) (t : String),
        lookupField fs "title" = some (Json.str t) →
        lookupField fs "description" = none →
        validateItemBase (Json.obj fs) = .ok ⟨t, none⟩) ∧
    (∀ (fs : List (String × Json)) (t d : String),
        lookupField fs "title" = some (Json.str t) →
        lookupField fs "description" = some (Json.str d) →
        validateItemBase (Json.obj fs) = .ok ⟨t, some d⟩) := by
  refine ⟨?_, ?_, ?_⟩
  · intro fs1 fs2 hT hD
    simp [validateItemBase, hT, hD]
  · intro fs t hT hD
    simp [validateItemBase, hT, hD, strValidate]
  · intro fs t d hT hD
    simp [validateItemBase, hT, hD, strValidate, Except.map]

/-- C9 witness: a body with the unknown field `owner` validates exactly as
the same body without it. -/
theorem extra_fields_ignored_witness :
    validateItemBase (Json.obj [("title", Json.str "a"), ("owner", Json.num 7)]) =
      validateItemBase (Json.obj [("title", Json.str "a")]) :=
  extra_fields_ignored.1 [("title", Json.str "a"), ("owner", Json.num 7)]
    [("title", Json.str "a")] rfl rfl

/-- C10: a body whose `title` is the empty string is accepted — only
presence and string type are checked — and the resulting Item is created
and stored with the empty (non-null) title. -/
theorem empty_title_accepted :
    validateItemBase (Json.obj [("title", Json.str "")]) = .ok ⟨"", none⟩ ∧
    (Crud.create_item emptyStore ⟨"", none⟩).2.title = some "" ∧
    (Crud.create_item emptyStore ⟨"", none⟩).1.rows = [⟨1, some "", none⟩] :=
  ⟨rfl, rfl, rfl⟩

/-- Finding a freshly appended row: if no existing row carries the new
row's id, lookup by that id lands on the appended row. -/
theorem find_append_fresh (l : List Item) (row : Item)
    (h : ∀ r ∈ l, r.id ≠ row.id) :
    (l ++ [row]).find? (fun r => r.id == row.id) = some row := by
  rw [List.find?_append]
  have h1 : l.find? (fun r => r.id == row.id) = none :=
    List.find?_eq_none.mpr (fun x hx => by simpa using h x hx)
  simp [h1]

/-- Lookup after an in-place overwrite: once every row matching `item_id`
is replaced by `c` (whose id is `item_id`), lookup by `item_id` yields `c`
whenever some row matched. -/
theorem find_map_overwrite (l : List Item) (item_id : Int) (c : Item)
    (hc : c.id = item_id) (h : l.any (fun r => r.id == item_id) = true) :
    (l.map (fun r => if r.id == item_id then c else r)).find?
      (fun r => r.id == item_id) = some c := by
  induction l with
  | nil => simp at h
  | cons a as ih =>
    rw [List.map_cons]
    by_cases ha : a.id = item_id
    · have htrue : (a.id == item_id) = true := by simpa using ha
      rw [List.find?_cons_of_pos _ (by simp [htrue, hc])]
      simp [htrue]
    · have hfalse : (a.id == item_id) = false := by simpa using ha
      have h2 : as.any (fun r => r.id == item_id) = true := by
        rw [List.any_cons, hfalse, Bool.false_or] at h
        exact h
      rw [List.find?_cons_of_neg _ (by simp [hfalse])]
      exact ih h2

/-- Every reachable store state satisfies the store invariant. -/
theorem reachable_inv (db : Store) (h : Reachable db) : db.Inv := by
  induction h with
  | init => simp [Store.Inv, emptyStore]
  | create db f hdb ih =>
    obtain ⟨hPW, hTitle, hBound⟩ := ih
    refine ⟨?_, ?_, ?_⟩
    · simp only [Crud.create_item]
      refine List.pairwise_append.mpr ⟨hPW, List.pairwise_singleton _ _, ?_⟩
      intro a ha b hb
      simp only [List.mem_singleton] at hb
      subst hb
      exact (hBound a ha).ne
    · intro r hr
      simp only [Crud.create_item, List.mem_append, List.mem_singleton] at hr
      rcases hr with hr | hr
      · exact hTitle r hr
      · subst hr; simp
    · intro r hr
      simp only [Crud.create_item, List.mem_append, List.mem_singleton] at hr
      simp only [Crud.create_item]
      rcases hr with hr | hr
      · have := hBound r hr; omega
      · subst hr
        show db.nextId < db.nextId + 1
        omega
  | update db db2 item_id f row hdb heq ih =>
    obtain ⟨hPW, hTitle, hBound⟩ := ih
    rw [Crud.update_item] at heq
    split at heq
    case isFalse => cases heq
    case isTrue hcond =>
    have hdb2 : db2 = Crud.updateRows db item_id f := by
      cases heq; rfl
    subst hdb2
    have gid : ∀ r : Item,
        (if r.id == item_id then Crud.overwrite item_id f else r).id = r.id := by
      intro r
      by_cases hr : r.id = item_id <;> simp [Crud.overwrite, hr]
    refine ⟨?_, ?_, ?_⟩
    · simp only [Crud.updateRows]
      exact hPW.map _ (fun a b hab => by rw [gid a, gid b]; exact hab)
    · intro r hr
      simp only [Crud.updateRows, List.mem_map] at hr
      obtain ⟨r0, hr0, hr0eq⟩ := hr
      subst hr0eq
      by_cases h0 : r0.id = item_id
      · simp [h0, Crud.overwrite]
      · have hfalse : (r0.id == item_id) = false := by simpa using h0
        simp only [hfalse, Bool.false_eq_true, if_false]
        exact hTitle r0 hr0
    · intro r hr
      simp only [Crud.updateRows, List.mem_map] at hr
      obtain ⟨r0, hr0, hr0eq⟩ := hr
      subst hr0eq
      rw [gid r0]
      exact hBound r0 hr0
  | delete db db2 item_id hdb heq ih =>
    obtain ⟨hPW, hTitle, hBound⟩ := ih
    rw [Crud.delete_item] at heq
    split at heq
    case isFalse => cases heq
    case isTrue hcond =>
    have hdb2 : db2 = ⟨db.rows.filter (fun r => !(r.id == item_id)), db.nextId⟩ := by
      cases heq; rfl
    subst hdb2
    refine ⟨hPW.filter _, ?_, ?_⟩
    · intro r hr
      exact hTitle r (List.mem_filter.mp hr).1
    · intro r hr
      exact hBound r (List.mem_filter.mp hr).1

/-- C1: on any reachable store, `create` with a valid payload followed by
`get` at the returned id yields the stored Item, whose title and
description equal the payload's and whose id is fresh (held by no
previously stored Item). -/
theorem create_then_get (db : Store) (f : ItemCreate) (h : Reachable db) :
    Crud.get_item (Crud.create_item db f).1 (Crud.create_item db f).2.id =
      .ok (Crud.create_item db f).2 ∧
    (Crud.create_item db f).2.title = some f.title ∧
    (Crud.create_item db f).2.description = f.description ∧
    ∀ r ∈ db.rows, r.id ≠ (Crud.create_item db f).2.id := by
  obtain ⟨-, -, hBound⟩ := reachable_inv db h
  have hfresh : ∀ r ∈ db.rows, r.id ≠ db.nextId := fun r hr => (hBound r hr).ne
  have hfind := find_append_fresh db.rows ⟨db.nextId, some f.title, f.description⟩ hfresh
  exact ⟨by simp [Crud.get_item, Crud.create_item, hfind], rfl, rfl, hfresh⟩

/-- C1 witness: create on the fresh store, then get. -/
theorem create_then_get_witness :
    Crud.get_item (Crud.create_item emptyStore ⟨"Buy milk", none⟩).1
        (Crud.create_item emptyStore ⟨"Buy milk", none⟩).2.id =
      .ok (Crud.create_item emptyStore ⟨"Buy milk", none⟩).2 ∧
    (Crud.create_item emptyStore ⟨"Buy milk", none⟩).2.title = some "Buy milk" ∧
    (Crud.create_item emptyStore ⟨"Buy milk", none⟩).2.description = none :=
  ⟨(create_then_get emptyStore ⟨"Buy milk", none⟩ Reachable.init).1,
   (create_then_get emptyStore ⟨"Buy milk", none⟩ Reachable.init).2.1,
   (create_then_get emptyStore ⟨"Buy milk", none⟩ Reachable.init).2.2.1⟩

/-- C2: on any store, `get`, `update` and `delete` at an id held by no
stored Item each signal NotFound — and, the result being exactly
`.error .notFound`, never any other error kind. -/
theorem missing_id_not_found (db : Store) (item_id : Int) (f : ItemUpdate)
    (h : ∀ r ∈ db.rows, r.id ≠ item_id) :
    Crud.get_item db item_id = .error .notFound ∧
    Crud.update_item db item_id f = .error .notFound ∧
    Crud.delete_item db item_id = .error .notFound := by
  have hfind : db.rows.find? (fun r => r.id == item_id) = none :=
    List.find?_eq_none.mpr (fun x hx => by simpa using h x hx)
  have hany : db.rows.any (fun r => r.id == item_id) = false :=
    List.any_eq_false.mpr (fun x hx => by simpa using h x hx)
  refine ⟨?_, ?_, ?_⟩ <;>
    simp [Crud.get_item, Crud.update_item, Crud.delete_item, hfind, hany]

/-- C2 witness: id 1 on the fresh (empty) store. -/
theorem missing_id_not_found_witness :
    Crud.get_item emptyStore 1 = .error .notFound ∧
    Crud.update_item emptyStore 1 ⟨"a", none⟩ = .error .notFound ∧
    Crud.delete_item emptyStore 1 = .error .notFound :=
  missing_id_not_found emptyStore 1 ⟨"a", none⟩ (by simp [emptyStore])

/-- C4: on any store holding a row with the given id, `update` succeeds and
a subsequent `get` at that id returns an Item whose title and description
equal the update payload's and whose id is the original id, unchanged. -/
theorem update_then_get (db : Store) (item_id : Int) (f : ItemUpdate)
    (h : db.rows.any (fun r => r.id == item_id) = true) :
    Crud.update_item db item_id f =
      .ok (Crud.updateRows db item_id f, Crud.overwrite item_id f) ∧
    Crud.get_item (Crud.updateRows db item_id f) item_id =
      .ok (Crud.overwrite item_id f) ∧
    (Crud.overwrite item_id f).id = item_id ∧
    (Crud.overwrite item_id f).title = some f.title ∧
    (Crud.overwrite item_id f).description = f.description := by
  have hfind := find_map_overwrite db.rows item_id (Crud.overwrite item_id f) rfl h
  exact ⟨by simp [Crud.update_item, h],
         by simp only [Crud.get_item, Crud.updateRows, hfind],
         rfl, rfl, rfl⟩

/-- C4 witness: the spec's scenario step — update item 1 with
`{"title":"Buy milk","description":"2%"}` on the store holding item 1. -/
theorem update_then_get_witness :
    Crud.update_item (Crud.create_item emptyStore ⟨"Buy milk", none⟩).1 1
        ⟨"Buy milk", some "2%"⟩ =
      .ok (Crud.updateRows (Crud.create_item emptyStore ⟨"Buy milk", none⟩).1 1
             ⟨"Buy milk", some "2%"⟩,
           Crud.overwrite 1 ⟨"Buy milk", some "2%"⟩) ∧
    Crud.get_item (Crud.updateRows (Crud.create_item emptyStore ⟨"Buy milk", none⟩).1 1
        ⟨"Buy milk", some "2%"⟩) 1 =
      .ok (Crud.overwrite 1 ⟨"Buy milk", some "2%"⟩) ∧
    (Crud.overwrite 1 (⟨"Buy milk", some "2%"⟩ : ItemUpdate)).id = 1 ∧
    (Crud.overwrite 1 (⟨"Buy milk", some "2%"⟩ : ItemUpdate)).title = some "Buy milk" ∧
    (Crud.overwrite 1 (⟨"Buy milk", some "2%"⟩ : ItemUpdate)).description = some "2%" :=
  update_then_get (Crud.create_item emptyStore ⟨"Buy milk", none⟩).1 1
    ⟨"Buy milk", some "2%"⟩ (by decide)

/-- C5: on any store holding a row with the given id, `delete` succeeds,
after which `get` at that id signals NotFound and a second `delete` at
that id also signals NotFound (never a different error kind). -/
theorem delete_then_get (db : Store) (item_id : Int)
    (h : db.rows.any (fun r => r.id == item_id) = true) :
    Crud.delete_item db item_id =
      .ok ⟨db.rows.filter (fun r => !(r.id == item_id)), db.nextId⟩ ∧
    Crud.get_item ⟨db.rows.filter (fun r => !(r.id == item_id)), db.nextId⟩
        item_id = .error .notFound ∧
    Crud.delete_item ⟨db.rows.filter (fun r => !(r.id == item_id)), db.nextId⟩
        item_id = .error .notFound := by
  have hmem : ∀ x ∈ db.rows.filter (fun r => !(r.id == item_id)),
      (x.id == item_id) = false := by
    intro x hx
    have := (List.mem_filter.mp hx).2
    simpa using this
  have hfind : (db.rows.filter (fun r => !(r.id == item_id))).find?
      (fun r => r.id == item_id) = none :=
    List.find?_eq_none.mpr (fun x hx => by simp [hmem x hx])
  have hany : (db.rows.filter (fun r => !(r.id == item_id))).any
      (fun r => r.id == item_id) = false :=
    List.any_eq_false.mpr (fun x hx => by simp [hmem x hx])
  exact ⟨by simp [Crud.delete_item, h],
         by simp [Crud.get_item, hfind],
         by simp [Crud.delete_item, hany]⟩

/-- C5 witness: delete item 1 from the store holding item 1, then get and
delete again. -/
theorem delete_then_get_witness :
    Crud.delete_item (Crud.create_item emptyStore ⟨"Buy milk", none⟩).1 1 =
      .ok ⟨(Crud.create_item emptyStore ⟨"Buy milk", none⟩).1.rows.filter
             (fun r => !(r.id == 1)),
           (Crud.create_item emptyStore ⟨"Buy milk", none⟩).1.nextId⟩ ∧
    Crud.get_item ⟨(Crud.create_item emptyStore ⟨"Buy milk", none⟩).1.rows.filter
        (fun r => !(r.id == 1)),
      (Crud.create_item emptyStore ⟨"Buy milk", none⟩).1.nextId⟩ 1 =
      .error .notFound ∧
    Crud.delete_item ⟨(Crud.create_item emptyStore ⟨"Buy milk", none⟩).1.rows.filter
        (fun r => !(r.id == 1)),
      (Crud.create_item emptyStore ⟨"Buy milk", none⟩).1.nextId⟩ 1 =
      .error .notFound :=
  delete_then_get (Crud.create_item emptyStore ⟨"Buy milk", none⟩).1 1 (by decide)

/-- C7: every reachable store state — every state produced by a sequence
of create, successful update and successful delete operations from the
empty store — has pairwise-distinct Item ids and no null title; since
reachability is closed under the four operations, each operation
preserves this invariant. -/
theorem reachable_unique_ids_and_nonnull_titles (db : Store)
    (h : Reachable db) :
    db.rows.Pairwise (fun a b => a.id ≠ b.id) ∧
    ∀ r ∈ db.rows, r.title ≠ none :=
  ⟨(reachable_inv db h).1, (reachable_inv db h).2.1⟩

/-- C7 witness: the store after one create is reachable and its ids are
pairwise distinct. -/
theorem reachable_unique_ids_and_nonnull_titles_witness :
    (Crud.create_item emptyStore ⟨"Buy milk", none⟩).1.rows.Pairwise
      (fun a b => a.id ≠ b.id) :=
  (reachable_unique_ids_and_nonnull_titles
    (Crud.create_item emptyStore ⟨"Buy milk", none⟩).1
    (Reachable.create emptyStore ⟨"Buy milk", none⟩ Reachable.init)).1
